import Mathlib

/-!
Shallow embedding of the harbor-cli repository's core logic, translated from
the Python sources:

  * `src/harbor_cli/style/color.py`        — severity color mapping
  * `src/harbor_cli/commands/api/cve_allowlist.py` — allowlist update/clear
  * `src/harbor_cli/config.py`             — settings model, auth check, TOML
    serialization (with secret redaction) and round-trip loading
  * `src/harbor_cli/commands/cli/self.py`  — dotted-key config get/set
  * `src/harbor_cli/harbor/client.py`      — memoized client factory

Machine strings are Lean `String`s; Python `None` becomes `Option`;
exceptions become `Except`/explicit result types.  External-library behavior
(pydantic field coercion, the TOML writer/parser pair) is modelled at the
dictionary level: `tomli_w.dumps` followed by `tomli.loads` is the identity
on the dictionaries produced here, so equality of dictionaries is equality
of the emitted TOML text.
-/

/-! ### style/color.py -/

/-- Members of the `SeverityColor` StrEnum (color.py lines 93-100). -/
inductive SeverityColor where
  | CRITICAL
  | HIGH
  | MEDIUM
  | LOW
  | NEGLIGIBLE
  | NONE
  | UNKNOWN
deriving DecidableEq, Repr

/-- The string value of each `SeverityColor` member (color.py lines 94-100). -/
def SeverityColor.value : SeverityColor → String
  | .CRITICAL => "dark_red"
  | .HIGH => "red"
  | .MEDIUM => "orange3"
  | .LOW => "green"
  | .NEGLIGIBLE => "blue"
  | .NONE => "white"
  | .UNKNOWN => "white"

/-- Python `str.upper()` restricted to ASCII, applied character by
character (the severity member names are all ASCII). -/
def pyUpper (s : String) : String :=
  String.mk (s.data.map Char.toUpper)

/-- Python `getattr(SeverityColor, name)` restricted to enum members.
All non-member attributes of the class (methods, dunders, inherited
attributes) contain lowercase letters, so an upper-cased lookup string can
only ever hit a member; a miss raises `AttributeError`, modelled as `none`. -/
def getattrSeverity (name : String) : Option SeverityColor :=
  if name = "CRITICAL" then some .CRITICAL
  else if name = "HIGH" then some .HIGH
  else if name = "MEDIUM" then some .MEDIUM
  else if name = "LOW" then some .LOW
  else if name = "NEGLIGIBLE" then some .NEGLIGIBLE
  else if name = "NONE" then some .NONE
  else if name = "UNKNOWN" then some .UNKNOWN
  else none

/-- `SeverityColor.from_severity` (color.py lines 102-113).  The body first
upper-cases the input and looks it up with `getattr`; a successful lookup is
always a `SeverityColor` member so the `isinstance` guard passes, and both
`AttributeError` and `ValueError` are caught and mapped to `UNKNOWN`.
`Except.error` is the (never taken) uncaught-exception outcome. -/
def SeverityColor.from_severity (severity : String) : Except String SeverityColor :=
  match getattrSeverity (pyUpper severity) with
  | some color => Except.ok color
  | none => Except.ok SeverityColor.UNKNOWN

/-! ### commands/api/cve_allowlist.py -/

/-- `harborapi.models.CVEAllowlistItem` as constructed by the CLI. -/
structure CVEAllowlistItem where
  cve_id : String
deriving DecidableEq, Repr

/-- `harborapi.models.CVEAllowlist`: the allowlist DTO with its metadata
fields; every field defaults to `None` in the library model. -/
structure CVEAllowlist where
  id : Option Int := none
  project_id : Option Int := none
  expires_at : Option Int := none
  items : Option (List CVEAllowlistItem) := none
  creation_time : Option String := none
  update_time : Option String := none
deriving DecidableEq, Repr

/-- Body of `update_allowlist` (cve_allowlist.py lines 44-58): builds one
`CVEAllowlistItem` per CVE id; with `--replace` the fetched list's items are
overwritten, otherwise a `None` item list is first replaced by `[]` and the
new items are appended.  Returns the allowlist sent back to the server. -/
def update_allowlist (current : CVEAllowlist) (cves : List String)
    (replace : Bool) : CVEAllowlist :=
  let cve_items := cves.map (fun cve_id => CVEAllowlistItem.mk cve_id)
  if replace then
    { current with items := some cve_items }
  else
    { current with items := some (current.items.getD [] ++ cve_items) }

/-- Body of `clear_allowlist` (cve_allowlist.py lines 76-86): without
`--full` the fetched list is sent back with `items = []`; with `--full` a
freshly constructed `CVEAllowlist(items=[])` is sent instead. -/
def clear_allowlist (current : CVEAllowlist) (full : Bool) : CVEAllowlist :=
  if full then
    { items := some [] }
  else
    { current with items := some [] }

/-! ### Theorems for the allowlist and color claims -/

/-- C1: `cve-allowlist update` with `--replace` sends back exactly the new
CVE items, discarding all existing entries; without `--replace` it sends the
existing items (an absent item list treated as empty) followed by the new
items. -/
theorem update_allowlist_items (current : CVEAllowlist) (cves : List String) :
    (update_allowlist current cves true).items
        = some (cves.map CVEAllowlistItem.mk)
    ∧ (update_allowlist current cves false).items
        = some (current.items.getD [] ++ cves.map CVEAllowlistItem.mk) := by
  constructor <;> simp [update_allowlist]

/-- C9: `cve-allowlist clear` without `--full` empties the items field and
leaves every metadata field of the fetched allowlist unchanged; with
`--full` it sends a freshly constructed allowlist holding only an empty item
list, all metadata discarded. -/
theorem clear_allowlist_frame (current : CVEAllowlist) :
    ((clear_allowlist current false).items = some []
      ∧ (clear_allowlist current false).id = current.id
      ∧ (clear_allowlist current false).project_id = current.project_id
      ∧ (clear_allowlist current false).expires_at = current.expires_at
      ∧ (clear_allowlist current false).creation_time = current.creation_time
      ∧ (clear_allowlist current false).update_time = current.update_time)
    ∧ clear_allowlist current true
        = { id := none, project_id := none, expires_at := none,
            items := some [], creation_time := none, update_time := none } := by
  refine ⟨⟨?_, ?_, ?_, ?_, ?_, ?_⟩, ?_⟩ <;> simp [clear_allowlist]

/-- C10: `SeverityColor.from_severity` is total — it returns a member for
every string without raising — and every input whose upper-cased form does
not name a severity member maps to `SeverityColor.UNKNOWN`. -/
theorem from_severity_total_unknown (s : String) :
    (∃ c : SeverityColor, SeverityColor.from_severity s = Except.ok c)
    ∧ (getattrSeverity (pyUpper s) = none
        → SeverityColor.from_severity s = Except.ok SeverityColor.UNKNOWN) := by
  constructor
  · unfold SeverityColor.from_severity
    cases h : getattrSeverity (pyUpper s) with
    | some c => exact ⟨c, rfl⟩
    | none => exact ⟨SeverityColor.UNKNOWN, rfl⟩
  · intro h
    unfold SeverityColor.from_severity
    rw [h]

/-- C10 witness: a concrete string that names no severity level maps to
`UNKNOWN`. -/
theorem from_severity_total_unknown_witness :
    SeverityColor.from_severity "not-a-severity"
      = Except.ok SeverityColor.UNKNOWN :=
  (from_severity_total_unknown "not-a-severity").2 rfl

/-! ### config.py — settings data model -/

/-- Log levels of `harbor_cli.logs.LogLevel`, a StrEnum.  Modelled from the
spec: `logs.py` is not among the provided sources; the spec names a
`[logging]` section with a level field, so the standard level names are
used.  Only the string round-trip of the enum matters for the claims. -/
inductive LogLevel where
  | DEBUG
  | INFO
  | WARNING
  | ERROR
  | CRITICAL
deriving DecidableEq, Repr

/-- String value of a log level (StrEnum member value). -/
def LogLevel.value : LogLevel → String
  | .DEBUG => "DEBUG"
  | .INFO => "INFO"
  | .WARNING => "WARNING"
  | .ERROR => "ERROR"
  | .CRITICAL => "CRITICAL"

/-- Pydantic coercion of a string into `LogLevel` (by member value). -/
def LogLevel.ofValue (s : String) : Option LogLevel :=
  if s = "DEBUG" then some .DEBUG
  else if s = "INFO" then some .INFO
  else if s = "WARNING" then some .WARNING
  else if s = "ERROR" then some .ERROR
  else if s = "CRITICAL" then some .CRITICAL
  else none

/-- Output formats of `harbor_cli.format.OutputFormat`.  Modelled from the
spec: `format.py` is not among the provided sources; the spec names
tabular and JSON renderings, with `OutputFormat.TABLE` the default.  Only
the string round-trip of the enum matters for the claims. -/
inductive OutputFormat where
  | TABLE
  | JSON
deriving DecidableEq, Repr

/-- String value of an output format (StrEnum member value). -/
def OutputFormat.value : OutputFormat → String
  | .TABLE => "table"
  | .JSON => "json"

/-- Pydantic coercion of a string into `OutputFormat` (by member value). -/
def OutputFormat.ofValue (s : String) : Option OutputFormat :=
  if s = "table" then some .TABLE
  else if s = "json" then some .JSON
  else none

/-- `HarborSettings` (config.py lines 108-113).  `SecretStr` fields carry
their secret string value (pydantic v1 `SecretStr` is falsy exactly when
that value is empty); `credentials_file` is `none` when unset — the
pre-validator `_empty_string_is_none` turns `""` into `None`, so the value
`some ""` never occurs in a validated model. -/
structure HarborSettings where
  url : String := ""
  username : String := ""
  secret : String := ""
  basicauth : String := ""
  credentials_file : Option String := none
deriving DecidableEq, Repr

/-- `HarborSettings.has_auth_method` (config.py lines 150-155):
`bool((username and secret) or basicauth or credentials_file)`. -/
def HarborSettings.has_auth_method (s : HarborSettings) : Bool :=
  (s.username != "" && s.secret != "") || s.basicauth != "" || s.credentials_file.isSome

/-- `HarborSettings.ensure_authable` (config.py lines 134-148): raises
`CredentialsError` (the `Except.error` branch) when the URL is empty or no
auth method is set, and returns `True` otherwise. -/
def HarborSettings.ensure_authable (s : HarborSettings) : Except String Bool :=
  if s.url = "" then
    Except.error "A Harbor API URL is required"
  else if !s.has_auth_method then
    Except.error "A harbor authentication method must be specified. One of 'username'+'secret', 'basicauth', or 'credentials_file' must be specified. See the documentation for more information."
  else
    Except.ok true

/-- Number of the three authentication methods that are set in a
`HarborSettings` value: username together with secret, basicauth, and
credentials file.  Used to state the exactly-one/at-least-one claims. -/
def HarborSettings.auth_method_count (s : HarborSettings) : Nat :=
  (if s.username != "" && s.secret != "" then 1 else 0)
  + (if s.basicauth != "" then 1 else 0)
  + (if s.credentials_file.isSome then 1 else 0)

/-- `LoggingSettings` (config.py lines 177-180). -/
structure LoggingSettings where
  enabled : Bool := true
  structlog : Bool := false
  level : LogLevel := .INFO
deriving DecidableEq, Repr

/-- `TableSettings` (config.py lines 183-215).  The `check_max_depth`
validator clamps `None` and negative inputs to `0`, so the stored value is
a natural number. -/
structure TableSettings where
  description : Bool := false
  max_depth : Nat := 0
  compact : Bool := true
deriving DecidableEq, Repr

/-- `JSONSettings` (config.py lines 218-220). -/
structure JSONSettings where
  indent : Int := 2
  sort_keys : Bool := true
deriving DecidableEq, Repr

/-- `OutputSettings` (config.py lines 223-250).  The `JSON` field is
serialized under the field name `JSON` and may be populated by either
`JSON` or its alias `json`. -/
structure OutputSettings where
  format : OutputFormat := .TABLE
  paging : Bool := false
  pager : Option String := none
  table : TableSettings := {}
  JSON : JSONSettings := {}
deriving DecidableEq, Repr

/-- `HarborCLIConfig` (config.py lines 253-264).  `config_file` is excluded
from every serialization (`exclude=True`) and is populated by `from_file`. -/
structure HarborCLIConfig where
  harbor : HarborSettings := {}
  logging : LoggingSettings := {}
  output : OutputSettings := {}
  config_file : Option String := none
deriving DecidableEq, Repr

/-! ### Theorems for the auth-method claims -/

/-- C3: for every `HarborSettings` with a non-empty URL, `ensure_authable`
raises `CredentialsError` when none of the three auth methods is set, and
returns `True` when any single one of the three is present. -/
theorem ensure_authable_auth_methods (s : HarborSettings) (hurl : s.url ≠ "") :
    ((¬(s.username ≠ "" ∧ s.secret ≠ "") ∧ s.basicauth = ""
        ∧ s.credentials_file = none)
      → ∃ msg, s.ensure_authable = Except.error msg)
    ∧ (((s.username ≠ "" ∧ s.secret ≠ "") ∨ s.basicauth ≠ ""
        ∨ s.credentials_file.isSome)
      → s.ensure_authable = Except.ok true) := by
  constructor
  · rintro ⟨h1, h2, h3⟩
    have hnam : s.has_auth_method = false := by
      unfold HarborSettings.has_auth_method
      rw [h2, h3]
      simp only [bne_self_eq_false, Option.isSome_none, Bool.or_false]
      by_cases hu : s.username = ""
      · simp [hu]
      · by_cases hs : s.secret = ""
        · simp [hs]
        · exact absurd ⟨hu, hs⟩ h1
    refine ⟨"A harbor authentication method must be specified. One of \'username\'+\'secret\', \'basicauth\', or \'credentials_file\' must be specified. See the documentation for more information.", ?_⟩
    unfold HarborSettings.ensure_authable
    rw [if_neg hurl, if_pos (by simp [hnam])]
  · intro h
    have hauth : s.has_auth_method = true := by
      unfold HarborSettings.has_auth_method
      rcases h with ⟨h1, h2⟩ | h1 | h1
      · simp [bne_iff_ne, h1, h2]
      · simp [bne_iff_ne, h1]
      · simp [h1]
    unfold HarborSettings.ensure_authable
    rw [if_neg hurl, if_neg (by simp [hauth])]

/-- C3 witness: concrete settings with a URL — one lacking all three auth
methods is rejected, one with only a basicauth token is accepted. -/
theorem ensure_authable_auth_methods_witness :
    (∃ msg,
      HarborSettings.ensure_authable
        { url := "https://harbor.example.com" } = Except.error msg)
    ∧ HarborSettings.ensure_authable
        { url := "https://harbor.example.com", basicauth := "dXNlcjpwdw==" }
        = Except.ok true :=
  ⟨(ensure_authable_auth_methods { url := "https://harbor.example.com" }
      (by decide)).1 (by decide),
   (ensure_authable_auth_methods
      { url := "https://harbor.example.com", basicauth := "dXNlcjpwdw==" }
      (by decide)).2 (by decide)⟩

/-- C4 counterexample: a configuration with two auth methods set at once
(username+secret and basicauth) is accepted by the authentication check
(`ensure_authable` returns `True`), refuting the exactly-one invariant. -/
theorem auth_exactly_one_counterexample :
    HarborSettings.ensure_authable
      { url := "https://harbor.example.com", username := "admin",
        secret := "hunter2", basicauth := "dXNlcjpwdw==" } = Except.ok true
    ∧ HarborSettings.auth_method_count
      { url := "https://harbor.example.com", username := "admin",
        secret := "hunter2", basicauth := "dXNlcjpwdw==" } = 2 :=
  ⟨rfl, by decide⟩

/-- C4 (amended): every configuration state accepted by the authentication
check performed before a client is constructed has at least one of the
three auth methods set — never zero — though more than one may be set. -/
theorem auth_at_least_one_method (s : HarborSettings)
    (h : s.ensure_authable = Except.ok true) :
    1 ≤ s.auth_method_count := by
  have hauth : s.has_auth_method = true := by
    by_contra hc
    have hfalse : s.has_auth_method = false := by
      cases hb : s.has_auth_method with
      | true => exact absurd hb hc
      | false => rfl
    unfold HarborSettings.ensure_authable at h
    by_cases hurl : s.url = ""
    · rw [if_pos hurl] at h
      exact Except.noConfusion h
    · rw [if_neg hurl, if_pos (by simp [hfalse])] at h
      exact Except.noConfusion h
  unfold HarborSettings.has_auth_method at hauth
  unfold HarborSettings.auth_method_count
  cases hm1 : (s.username != "" && s.secret != "") <;>
    cases hm2 : (s.basicauth != "") <;>
    cases hm3 : (s.credentials_file.isSome) <;>
    simp_all

/-- C4 witness: a configuration with only a credentials file passes the
check and indeed has at least one auth method set. -/
theorem auth_at_least_one_method_witness :
    HarborSettings.ensure_authable
      { url := "https://harbor.example.com",
        credentials_file := some "/tmp/creds" } = Except.ok true
    ∧ 1 ≤ HarborSettings.auth_method_count
      { url := "https://harbor.example.com",
        credentials_file := some "/tmp/creds" } :=
  ⟨rfl,
   auth_at_least_one_method
     { url := "https://harbor.example.com",
       credentials_file := some "/tmp/creds" } rfl⟩

/-! ### config.py — TOML serialization

`HarborCLIConfig.toml` round-trips the model through the pydantic JSON
encoder into a dictionary of builtin types, replaces `None` values with
empty strings (`replace_none`), optionally redacts secrets, and hands the
dictionary to `tomli_w.dumps`; `from_file` reads it back with `tomli.loads`
and re-validates.  The writer/parser pair is the identity on these
dictionaries, so both claims are settled at the dictionary level. -/

/-- The `[harbor]` table of `config.toml(exclude_none=True)` as written by
`save_config` (config.py lines 383-389): the pydantic `SecretStr` JSON
encoder emits the secret value when non-empty and `None` otherwise, and
`exclude_none=True` drops every `None`-valued key (`none` here = key
absent). -/
structure SavedHarbor where
  url : String
  username : String
  secret : Option String
  basicauth : Option String
  credentials_file : Option String
deriving DecidableEq, Repr

/-- The `[logging]` table as written by `save_config`. -/
structure SavedLogging where
  enabled : Bool
  structlog : Bool
  level : String
deriving DecidableEq, Repr

/-- The `[output.table]` table as written by `save_config` (TOML integers
are signed; `check_max_depth` re-validates on load). -/
structure SavedTable where
  description : Bool
  max_depth : Int
  compact : Bool
deriving DecidableEq, Repr

/-- The `[output.JSON]` table as written by `save_config` (pydantic v1
`.json()` uses the field name `JSON`, not the alias, and
`allow_population_by_field_name` accepts it back). -/
structure SavedJSON where
  indent : Int
  sort_keys : Bool
deriving DecidableEq, Repr

/-- The `[output]` table as written by `save_config`; `pager` is dropped
when `None`. -/
structure SavedOutput where
  format : String
  paging : Bool
  pager : Option String
  table : SavedTable
  JSON : SavedJSON
deriving DecidableEq, Repr

/-- The whole dictionary written by `save_config`; `config_file` is always
excluded (`exclude=True` on the field). -/
structure SavedConfig where
  harbor : SavedHarbor
  logging : SavedLogging
  output : SavedOutput
deriving DecidableEq, Repr

/-- `config.toml(exclude_none=True)` at dictionary level, as called by
`save_config` (config.py line 386): secrets are exposed
(`expose_secrets` defaults to `True`), `None`-encoded values are dropped. -/
def save_dict (c : HarborCLIConfig) : SavedConfig :=
  { harbor :=
      { url := c.harbor.url
        username := c.harbor.username
        secret := if c.harbor.secret = "" then none else some c.harbor.secret
        basicauth := if c.harbor.basicauth = "" then none else some c.harbor.basicauth
        credentials_file := c.harbor.credentials_file }
    logging :=
      { enabled := c.logging.enabled
        structlog := c.logging.structlog
        level := c.logging.level.value }
    output :=
      { format := c.output.format.value
        paging := c.output.paging
        pager := c.output.pager
        table :=
          { description := c.output.table.description
            max_depth := (c.output.table.max_depth : Int)
            compact := c.output.table.compact }
        JSON :=
          { indent := c.output.JSON.indent
            sort_keys := c.output.JSON.sort_keys } } }

/-- `HarborCLIConfig.from_file` (config.py lines 266-294) at dictionary
level: re-validates the loaded dictionary — absent keys take the field
defaults, `_empty_string_is_none` maps `""` to `None`,
`_validate_credentials_file` requires the file to exist (`fe` is the
filesystem-existence oracle), `check_max_depth` clamps negative depths to
`0`, enum fields must parse — and populates `config_file` with the path.
A validation failure (`ValidationError`) is `none`. -/
def from_file_dict (fe : String → Bool) (path : String) (d : SavedConfig) :
    Option HarborCLIConfig :=
  let cf : Option String :=
    match d.harbor.credentials_file with
    | none => none
    | some v => if v = "" then none else some v
  let cfOk : Bool :=
    match cf with
    | none => true
    | some p => fe p
  match LogLevel.ofValue d.logging.level, OutputFormat.ofValue d.output.format, cfOk with
  | some lvl, some fmt, true =>
      some
        { harbor :=
            { url := d.harbor.url
              username := d.harbor.username
              secret := d.harbor.secret.getD ""
              basicauth := d.harbor.basicauth.getD ""
              credentials_file := cf }
          logging :=
            { enabled := d.logging.enabled
              structlog := d.logging.structlog
              level := lvl }
          output :=
            { format := fmt
              paging := d.output.paging
              pager := d.output.pager
              table :=
                { description := d.output.table.description
                  max_depth :=
                    (if d.output.table.max_depth < 0 then 0
                     else d.output.table.max_depth).toNat
                  compact := d.output.table.compact }
              JSON :=
                { indent := d.output.JSON.indent
                  sort_keys := d.output.JSON.sort_keys } }
          config_file := some path }
  | _, _, _ => none

/-- Every log level parses back from its serialized value. -/
theorem logLevel_ofValue_value (l : LogLevel) : LogLevel.ofValue l.value = some l := by
  cases l <;> rfl

/-- Every output format parses back from its serialized value. -/
theorem outputFormat_ofValue_value (f : OutputFormat) :
    OutputFormat.ofValue f.value = some f := by
  cases f <;> rfl

/-- Loading clamps an already-valid (natural) `max_depth` to itself. -/
theorem max_depth_clamp (n : Nat) :
    (if (n : Int) < 0 then 0 else (n : Int)).toNat = n := by
  rw [if_neg (by omega)]
  omega

/-- C2: saving a configuration with `save_config` and reloading the same
file with `from_file`/`load_config` yields a configuration whose settings
sections all equal the saved in-memory ones (only `config_file`, which is
never serialized, is repopulated from the path).  The hypotheses are the
model invariants: a validated `credentials_file` is never `some ""` and
names an existing file. -/
theorem config_save_load_roundtrip (c : HarborCLIConfig) (fe : String → Bool)
    (path : String)
    (hcf : ∀ p, c.harbor.credentials_file = some p → p ≠ "" ∧ fe p = true) :
    from_file_dict fe path (save_dict c)
      = some { c with config_file := some path } := by
  obtain ⟨⟨url, username, secret, basicauth, credentials_file⟩,
          ⟨lenb, lstr, lvl⟩,
          ⟨fmt, paging, pager, ⟨td, tm, tc⟩, ⟨ji, js⟩⟩, cfile⟩ := c
  unfold from_file_dict save_dict
  simp only [logLevel_ofValue_value, outputFormat_ofValue_value]
  cases credentials_file with
  | none =>
      by_cases hsec : secret = "" <;> by_cases hba : basicauth = "" <;>
        simp [hsec, hba, max_depth_clamp]
  | some p =>
      obtain ⟨hne, hfe⟩ := hcf p rfl
      by_cases hsec : secret = "" <;> by_cases hba : basicauth = "" <;>
        simp [hsec, hba, hne, hfe, max_depth_clamp]

/-- C2 witness: a concrete configuration (with a credentials file the
oracle says exists) reloads to itself, `config_file` aside. -/
theorem config_save_load_roundtrip_witness :
    from_file_dict (fun _ => true) "/home/u/.config/harbor_cli/config.toml"
      (save_dict
        { harbor := { url := "https://harbor.example.com", username := "admin",
                      secret := "hunter2", credentials_file := some "/tmp/creds" },
          logging := { enabled := true, structlog := false, level := .WARNING },
          output := { format := .JSON, paging := false, pager := none,
                      table := { description := true, max_depth := 3, compact := false },
                      JSON := { indent := 4, sort_keys := false } } })
      = some
        { harbor := { url := "https://harbor.example.com", username := "admin",
                      secret := "hunter2", credentials_file := some "/tmp/creds" },
          logging := { enabled := true, structlog := false, level := .WARNING },
          output := { format := .JSON, paging := false, pager := none,
                      table := { description := true, max_depth := 3, compact := false },
                      JSON := { indent := 4, sort_keys := false } },
          config_file := some "/home/u/.config/harbor_cli/config.toml" } :=
  config_save_load_roundtrip _ _ _
    (by intro p hp; cases hp; exact ⟨by decide, rfl⟩)

/-- The `[harbor]` table of `config.toml()` without `exclude_none`: every
key is present, `None`-encoded values (`SecretStr` with empty value,
unset `credentials_file`) are turned into `""` by `replace_none`
(config.py lines 335-340). -/
structure TomlHarbor where
  url : String
  username : String
  secret : String
  basicauth : String
  credentials_file : String
deriving DecidableEq, Repr

/-- The `[output]` table of `config.toml()` without `exclude_none`:
`pager = None` becomes `""` via `replace_none`. -/
structure TomlOutput where
  format : String
  paging : Bool
  pager : String
  table : SavedTable
  JSON : SavedJSON
deriving DecidableEq, Repr

/-- The whole dictionary handed to `tomli_w.dumps` by
`HarborCLIConfig.toml` when called without extra kwargs (as
`render_config` does via `config.toml(expose_secrets=False)`). -/
structure TomlConfig where
  harbor : TomlHarbor
  logging : SavedLogging
  output : TomlOutput
deriving DecidableEq, Repr

/-- `HarborCLIConfig.toml` (config.py lines 303-350) at dictionary level:
the JSON round trip with `replace_none` produces the dictionary of builtin
types; when `expose_secrets` is false, each of the keys `secret`,
`basicauth`, `credentials_file` in the `harbor` table whose value is
truthy (a non-empty string) is replaced by `"********"` — empty values
are skipped by the `and dict_basic_types["harbor"][key]` guard. -/
def toml_dict (c : HarborCLIConfig) (expose_secrets : Bool) : TomlConfig :=
  let harbor0 : TomlHarbor :=
    { url := c.harbor.url
      username := c.harbor.username
      secret := c.harbor.secret
      basicauth := c.harbor.basicauth
      credentials_file := c.harbor.credentials_file.getD "" }
  let harbor :=
    if expose_secrets then harbor0
    else
      { harbor0 with
        secret := if harbor0.secret ≠ "" then "********" else harbor0.secret
        basicauth := if harbor0.basicauth ≠ "" then "********" else harbor0.basicauth
        credentials_file :=
          if harbor0.credentials_file ≠ "" then "********"
          else harbor0.credentials_file }
  { harbor := harbor
    logging :=
      { enabled := c.logging.enabled
        structlog := c.logging.structlog
        level := c.logging.level.value }
    output :=
      { format := c.output.format.value
        paging := c.output.paging
        pager := c.output.pager.getD ""
        table :=
          { description := c.output.table.description
            max_depth := (c.output.table.max_depth : Int)
            compact := c.output.table.compact }
        JSON :=
          { indent := c.output.JSON.indent
            sort_keys := c.output.JSON.sort_keys } } }

/-- C6: redacted TOML output is independent of the secret values — any two
configurations that differ only in the harbor secret fields (all non-empty)
produce the identical dictionary, with each secret field rendered as the
fixed string `"********"`; empty secret fields are left as-is (rendered as
the empty string) rather than replaced. -/
theorem toml_redaction_secret_independent :
    (∀ c1 c2 : HarborCLIConfig,
        c1.harbor.url = c2.harbor.url →
        c1.harbor.username = c2.harbor.username →
        c1.logging = c2.logging →
        c1.output = c2.output →
        c1.harbor.secret ≠ "" → c2.harbor.secret ≠ "" →
        c1.harbor.basicauth ≠ "" → c2.harbor.basicauth ≠ "" →
        (∃ p, c1.harbor.credentials_file = some p ∧ p ≠ "") →
        (∃ p, c2.harbor.credentials_file = some p ∧ p ≠ "") →
        toml_dict c1 false = toml_dict c2 false
        ∧ (toml_dict c1 false).harbor.secret = "********"
        ∧ (toml_dict c1 false).harbor.basicauth = "********"
        ∧ (toml_dict c1 false).harbor.credentials_file = "********")
    ∧ (∀ c : HarborCLIConfig,
        (c.harbor.secret = "" → (toml_dict c false).harbor.secret = "")
        ∧ (c.harbor.basicauth = "" → (toml_dict c false).harbor.basicauth = "")
        ∧ (c.harbor.credentials_file = none
            → (toml_dict c false).harbor.credentials_file = "")) := by
  constructor
  · intro c1 c2 hu hn hl ho hs1 hs2 hb1 hb2 hc1 hc2
    obtain ⟨p1, hp1, hp1ne⟩ := hc1
    obtain ⟨p2, hp2, hp2ne⟩ := hc2
    refine ⟨?_, ?_, ?_, ?_⟩
    · unfold toml_dict
      rw [hu, hn, hl, ho]
      simp [hp1, hp2, hp1ne, hp2ne, hs1, hs2, hb1, hb2]
    · simp [toml_dict, hs1]
    · simp [toml_dict, hb1]
    · simp [toml_dict, hp1, hp1ne]
  · intro c
    refine ⟨?_, ?_, ?_⟩
    · intro h; simp [toml_dict, h]
    · intro h; simp [toml_dict, h]
    · intro h; simp [toml_dict, h]

/-- First concrete configuration for the C6 witness. -/
def cfgSecretA : HarborCLIConfig :=
  { harbor := { url := "https://harbor.example.com", username := "admin",
                secret := "hunter2", basicauth := "dXNlcjpwdw==",
                credentials_file := some "/tmp/creds" } }

/-- Second concrete configuration for the C6 witness: same settings except
for the values of the three secret fields. -/
def cfgSecretB : HarborCLIConfig :=
  { harbor := { url := "https://harbor.example.com", username := "admin",
                secret := "s3cr3t", basicauth := "b3RoZXI6cHc=",
                credentials_file := some "/etc/creds" } }

/-- C6 witness: two concrete configurations differing only in their secret
values redact to the same dictionary, and an empty secret is left as-is. -/
theorem toml_redaction_secret_independent_witness :
    toml_dict cfgSecretA false = toml_dict cfgSecretB false
    ∧ (toml_dict cfgSecretA false).harbor.secret = "********"
    ∧ (toml_dict {} false).harbor.secret = "" :=
  ⟨(toml_redaction_secret_independent.1 cfgSecretA cfgSecretB rfl rfl rfl rfl
      (by decide) (by decide) (by decide) (by decide)
      ⟨"/tmp/creds", rfl, by decide⟩ ⟨"/etc/creds", rfl, by decide⟩).1,
   (toml_redaction_secret_independent.1 cfgSecretA cfgSecretB rfl rfl rfl rfl
      (by decide) (by decide) (by decide) (by decide)
      ⟨"/tmp/creds", rfl, by decide⟩ ⟨"/etc/creds", rfl, by decide⟩).2.1,
   ((toml_redaction_secret_independent.2 {}).1 rfl)⟩

/-! ### commands/cli/self.py — dotted-key config get/set

`get_cli_config` and `set_cli_config` navigate the configuration model with
`getattr` over the parts of a dot-separated key.  `getattr` is modelled
over the model fields (the schema tree); leaf values have no attributes.
Python mutates the sub-model in place through the reference returned by
`getattr`; the functional embedding reconstructs the configuration along
the (statically unique) navigation path instead. -/

/-- Python `str.split(".")`: splits on every dot, `""` yields `[""]`. -/
def splitDotAux : List Char → List Char → List String
  | [], acc => [String.mk acc.reverse]
  | c :: cs, acc =>
    if c = '.' then String.mk acc.reverse :: splitDotAux cs []
    else splitDotAux cs (c :: acc)

/-- Python `key.split(".")` on a Lean string. -/
def pySplitDot (s : String) : List String :=
  splitDotAux s.data []

/-- A Python object reachable by `getattr` from the loaded config: either
one of the pydantic models or a leaf field value. -/
inductive CfgObj where
  | oConfig (c : HarborCLIConfig)
  | oHarbor (h : HarborSettings)
  | oLogging (l : LoggingSettings)
  | oOutput (o : OutputSettings)
  | oTable (t : TableSettings)
  | oJSON (j : JSONSettings)
  | vStr (v : String)
  | vOptStr (v : Option String)
  | vBool (v : Bool)
  | vNat (v : Nat)
  | vInt (v : Int)
  | vLevel (v : LogLevel)
  | vFormat (v : OutputFormat)
deriving DecidableEq, Repr

/-- Whether the object is a pydantic model (`isinstance(obj, PydanticBaseModel)`). -/
def CfgObj.isModel : CfgObj → Bool
  | .oConfig _ | .oHarbor _ | .oLogging _ | .oOutput _ | .oTable _ | .oJSON _ => true
  | _ => false

/-- `getattr(obj, name)` over the configuration schema: `some` for a model
field, `none` for `AttributeError`.  (Methods and computed properties of
the models are not part of the configuration schema and are omitted.) -/
def getattrCfg : CfgObj → String → Option CfgObj
  | .oConfig c, "harbor" => some (.oHarbor c.harbor)
  | .oConfig c, "logging" => some (.oLogging c.logging)
  | .oConfig c, "output" => some (.oOutput c.output)
  | .oConfig c, "config_file" => some (.vOptStr c.config_file)
  | .oHarbor h, "url" => some (.vStr h.url)
  | .oHarbor h, "username" => some (.vStr h.username)
  | .oHarbor h, "secret" => some (.vStr h.secret)
  | .oHarbor h, "basicauth" => some (.vStr h.basicauth)
  | .oHarbor h, "credentials_file" => some (.vOptStr h.credentials_file)
  | .oLogging l, "enabled" => some (.vBool l.enabled)
  | .oLogging l, "structlog" => some (.vBool l.structlog)
  | .oLogging l, "level" => some (.vLevel l.level)
  | .oOutput o, "format" => some (.vFormat o.format)
  | .oOutput o, "paging" => some (.vBool o.paging)
  | .oOutput o, "pager" => some (.vOptStr o.pager)
  | .oOutput o, "table" => some (.oTable o.table)
  | .oOutput o, "JSON" => some (.oJSON o.JSON)
  | .oTable t, "description" => some (.vBool t.description)
  | .oTable t, "max_depth" => some (.vNat t.max_depth)
  | .oTable t, "compact" => some (.vBool t.compact)
  | .oJSON j, "indent" => some (.vInt j.indent)
  | .oJSON j, "sort_keys" => some (.vBool j.sort_keys)
  | _, _ => none

/-- `obj.model_fields` for each model: the declared field names. -/
def modelFields : CfgObj → List String
  | .oConfig _ => ["harbor", "logging", "output", "config_file"]
  | .oHarbor _ => ["url", "username", "secret", "basicauth", "credentials_file"]
  | .oLogging _ => ["enabled", "structlog", "level"]
  | .oOutput _ => ["format", "paging", "pager", "table", "JSON"]
  | .oTable _ => ["description", "max_depth", "compact"]
  | .oJSON _ => ["indent", "sort_keys"]
  | _ => []

/-- Result of `self config get` for an optional KEY argument. -/
inductive GetResult where
  | value (v : CfgObj)
  | showConfig
  | exitErr (msg : String)
deriving DecidableEq, Repr

/-- `get_cli_config` (self.py lines 81-116): without a key (or with a falsy
empty key) the whole configuration is rendered; otherwise the key is split
on dots and resolved with `getattr` step by step — an `AttributeError`
anywhere exits with the invalid-key message, otherwise the resolved value
is rendered. -/
def get_cli_config (c : HarborCLIConfig) (key : Option String) : GetResult :=
  match key with
  | none => .showConfig
  | some k =>
    if k = "" then .showConfig
    else
      let attrs := pySplitDot k
      let res : Option CfgObj :=
        if attrs.length > 1 then
          match getattrCfg (.oConfig c) (attrs.headD "") with
          | none => none
          | some o0 => (attrs.drop 1).foldlM (fun o a => getattrCfg o a) o0
        else
          getattrCfg (.oConfig c) k
      match res with
      | some v => .value v
      | none => .exitErr ("Invalid config key: " ++ k)

/-- Python `str.lower()` restricted to ASCII. -/
def pyLower (s : String) : String :=
  String.mk (s.data.map Char.toLower)

/-- Pydantic coercion of a CLI string into a bool field:
case-insensitive `"1"/"on"/"t"/"true"/"y"/"yes"` and
`"0"/"off"/"f"/"false"/"n"/"no"`; anything else is a `ValidationError`. -/
def parse_bool (v : String) : Option Bool :=
  let lv := pyLower v
  if lv = "1" ∨ lv = "on" ∨ lv = "t" ∨ lv = "true" ∨ lv = "y" ∨ lv = "yes" then
    some true
  else if lv = "0" ∨ lv = "off" ∨ lv = "f" ∨ lv = "false" ∨ lv = "n" ∨ lv = "no" then
    some false
  else
    none

/-- Decimal digits to a natural number. -/
def natOfDigits (ds : List Char) : Nat :=
  ds.foldl (fun n c => 10 * n + (c.toNat - 48)) 0

/-- Python `int(str)` (sign and decimal digits; anything else raises). -/
def parse_int (s : String) : Option Int :=
  match s.data with
  | '-' :: ds =>
    if ds ≠ [] ∧ ds.all Char.isDigit then some (-(natOfDigits ds : Int)) else none
  | ds =>
    if ds ≠ [] ∧ ds.all Char.isDigit then some ((natOfDigits ds : Int)) else none

/-- Outcome of `setattr(obj, field, value)` under pydantic
`validate_assignment`. -/
inductive SetFieldResult where
  | ok (o : CfgObj)
  | invalidValue
  | noField
deriving DecidableEq, Repr

/-- `setattr(obj, field, value)` with the string VALUE argument of
`self config set`, running the pydantic validators of each field (`fe` is
the filesystem-existence oracle used by `_validate_credentials_file`).
Assigning a string to a sub-model field (`table`, `JSON`) is a
`ValidationError`. -/
def coerce_set (fe : String → Bool) : CfgObj → String → String → SetFieldResult
  | .oConfig c, "config_file", v => .ok (.oConfig { c with config_file := some v })
  | .oHarbor h, "url", v => .ok (.oHarbor { h with url := v })
  | .oHarbor h, "username", v => .ok (.oHarbor { h with username := v })
  | .oHarbor h, "secret", v => .ok (.oHarbor { h with secret := v })
  | .oHarbor h, "basicauth", v => .ok (.oHarbor { h with basicauth := v })
  | .oHarbor h, "credentials_file", v =>
    if v = "" then .ok (.oHarbor { h with credentials_file := none })
    else if fe v then .ok (.oHarbor { h with credentials_file := some v })
    else .invalidValue
  | .oLogging l, "enabled", v =>
    match parse_bool v with
    | some b => .ok (.oLogging { l with enabled := b })
    | none => .invalidValue
  | .oLogging l, "structlog", v =>
    match parse_bool v with
    | some b => .ok (.oLogging { l with structlog := b })
    | none => .invalidValue
  | .oLogging l, "level", v =>
    match LogLevel.ofValue v with
    | some lvl => .ok (.oLogging { l with level := lvl })
    | none => .invalidValue
  | .oOutput o, "format", v =>
    match OutputFormat.ofValue v with
    | some f => .ok (.oOutput { o with format := f })
    | none => .invalidValue
  | .oOutput o, "paging", v =>
    match parse_bool v with
    | some b => .ok (.oOutput { o with paging := b })
    | none => .invalidValue
  | .oOutput o, "pager", v => .ok (.oOutput { o with pager := some v })
  | .oOutput _, "table", _ => .invalidValue
  | .oOutput _, "JSON", _ => .invalidValue
  | .oTable t, "description", v =>
    match parse_bool v with
    | some b => .ok (.oTable { t with description := b })
    | none => .invalidValue
  | .oTable t, "max_depth", v =>
    match parse_int v with
    | some n => .ok (.oTable { t with max_depth := (if n < 0 then 0 else n).toNat })
    | none => .invalidValue
  | .oTable t, "compact", v =>
    match parse_bool v with
    | some b => .ok (.oTable { t with compact := b })
    | none => .invalidValue
  | .oJSON j, "indent", v =>
    match parse_int v with
    | some n => .ok (.oJSON { j with indent := n })
    | none => .invalidValue
  | .oJSON j, "sort_keys", v =>
    match parse_bool v with
    | some b => .ok (.oJSON { j with sort_keys := b })
    | none => .invalidValue
  | _, _, _ => .noField

/-- Writes a mutated sub-model back into the configuration at its
navigation path.  Python mutates in place through the alias returned by
`getattr`; in the schema tree every model is reachable by exactly one
path, so this reconstruction is that mutation. -/
def write_back (c : HarborCLIConfig) (path : List String) (o : CfgObj) :
    HarborCLIConfig :=
  match path, o with
  | [], .oConfig c2 => c2
  | ["harbor"], .oHarbor h => { c with harbor := h }
  | ["logging"], .oLogging l => { c with logging := l }
  | ["output"], .oOutput o2 => { c with output := o2 }
  | ["output", "table"], .oTable t => { c with output := { c.output with table := t } }
  | ["output", "JSON"], .oJSON j => { c with output := { c.output with JSON := j } }
  | _, _ => c

/-- Outcome of running `self config set`: a clean exit with an error
message (`exit_err`), a successfully updated configuration, or an uncaught
exception (the bare `assert` on line 184 of self.py, not covered by the
`except` clauses). -/
inductive SetResult where
  | ok (c : HarborCLIConfig)
  | exitErr (msg : String)
  | assertionFailed
deriving DecidableEq, Repr

/-- `set_cli_config` key/value handling (self.py lines 174-206): empty key
exits; a dotted key is navigated to its parent object — an `AttributeError`
exits with the invalid-key message, a non-model parent trips the bare
`assert` (an uncaught `AssertionError`), a final component outside
`model_fields` exits with the invalid-key message, and `setattr` runs the
field validators (`ValidationError` exits with the invalid-value message).
A single-component key may only name a non-model top-level field;
overwriting a config table is an `AttributeError` caught into the
invalid-key exit. -/
def set_cli_config_value (fe : String → Bool) (c : HarborCLIConfig)
    (key value : String) : SetResult :=
  if key = "" then .exitErr "No key specified."
  else
    let attrs := pySplitDot key
    if attrs.length > 1 then
      match (getattrCfg (.oConfig c) (attrs.headD "")).bind
          (fun o0 => (attrs.dropLast.drop 1).foldlM (fun o a => getattrCfg o a) o0) with
      | none => .exitErr ("Invalid config key: " ++ key)
      | some obj =>
        if !obj.isModel then .assertionFailed
        else
          let to_set := attrs.getLastD ""
          if to_set ∉ modelFields obj then .exitErr ("Invalid config key: " ++ key)
          else
            match coerce_set fe obj to_set value with
            | .ok o2 => .ok (write_back c attrs.dropLast o2)
            | .invalidValue => .exitErr ("Invalid value for key " ++ key)
            | .noField => .exitErr ("Invalid config key: " ++ key)
    else
      match getattrCfg (.oConfig c) key with
      | none => .exitErr ("Invalid config key: " ++ key)
      | some obj =>
        if obj.isModel then .exitErr ("Invalid config key: " ++ key)
        else
          match coerce_set fe (.oConfig c) key value with
          | .ok (.oConfig c2) => .ok c2
          | .ok _ => .exitErr ("Invalid config key: " ++ key)
          | .invalidValue => .exitErr ("Invalid value for key " ++ key)
          | .noField => .exitErr ("Invalid config key: " ++ key)

/-- C5: the spec requires dotted-key get/set to fail with a clear error for
unknown keys, but `self config set` with a key that dereferences through a
leaf field (here `harbor.url.port`) trips the bare `assert` and crashes
with an uncaught `AssertionError`, while `get` with the same unknown key
exits cleanly with the invalid-key message. -/
theorem set_config_leaf_traversal_asserts :
    set_cli_config_value (fun _ => true)
      { harbor := { url := "https://harbor.example.com" } }
      "harbor.url.port" "8080"
      = SetResult.assertionFailed
    ∧ get_cli_config { harbor := { url := "https://harbor.example.com" } }
        (some "harbor.url.port")
      = GetResult.exitErr "Invalid config key: harbor.url.port"
    ∧ set_cli_config_value (fun _ => true)
      { harbor := { url := "https://harbor.example.com" } }
      "harbor.port" "8080"
      = SetResult.exitErr "Invalid config key: harbor.port" := by
  refine ⟨rfl, rfl, rfl⟩

/-- Outcome of the whole `self config set` command: clean error exit,
success, the uncaught `AssertionError`, or the uncaught `ValueError` that
`HarborCLIConfig.save` raises when neither `--path` nor a loaded config
file provides a save target (the command callback rules this out by
requiring a loaded config file). -/
inductive SetCmdResult where
  | ok (c : HarborCLIConfig)
  | exitErr (msg : String)
  | assertionFailed
  | saveError
deriving DecidableEq, Repr

/-- `set_cli_config` (self.py lines 151-214) with its persistence step:
after a successful assignment the configuration is saved via
`state.config.save(path=path)` — which writes `save_dict` of the updated
configuration to the `--path` target or the loaded config file — unless
`--session` is given, in which case the on-disk dictionary is untouched.
`disk` is the persisted dictionary (`none` = no file yet); a failed
assignment exits before the save call. -/
def set_cli_config (fe : String → Bool) (c : HarborCLIConfig)
    (key value : String) (path : Option String) (session : Bool)
    (disk : Option SavedConfig) : SetCmdResult × Option SavedConfig :=
  match set_cli_config_value fe c key value with
  | .ok c2 =>
    if session then (.ok c2, disk)
    else
      match path with
      | some _ => (.ok c2, some (save_dict c2))
      | none =>
        match c2.config_file with
        | some _ => (.ok c2, some (save_dict c2))
        | none => (.saveError, disk)
  | .exitErr m => (.exitErr m, disk)
  | .assertionFailed => (.assertionFailed, disk)

/-- C8: every successful `self config set` persists the updated
configuration to disk immediately — unless `--session` is given, in which
case the on-disk configuration is left unchanged. -/
theorem set_config_persistence (fe : String → Bool) (c : HarborCLIConfig)
    (key value : String) (path : Option String) (session : Bool)
    (disk : Option SavedConfig) (c2 : HarborCLIConfig)
    (hok : set_cli_config_value fe c key value = .ok c2)
    (hpath : path.isSome = true ∨ c2.config_file.isSome = true) :
    set_cli_config fe c key value path session disk
      = (.ok c2, if session then disk else some (save_dict c2)) := by
  unfold set_cli_config
  rw [hok]
  cases session with
  | true => simp
  | false =>
    cases path with
    | some p => simp
    | none =>
      rcases hpath with h | h
      · simp at h
      · cases hcf : c2.config_file with
        | some p => simp [hcf]
        | none => rw [hcf] at h; simp at h

/-- Concrete loaded configuration for the C8 witness. -/
def cfgWithFile : HarborCLIConfig :=
  { config_file := some "/home/u/.config/harbor_cli/config.toml" }

/-- `cfgWithFile` after `self config set harbor.username bob`. -/
def cfgWithFileSet : HarborCLIConfig :=
  { harbor := { username := "bob" },
    config_file := some "/home/u/.config/harbor_cli/config.toml" }

/-- C8 witness: a concrete successful `set` writes the updated dictionary
to disk without `--session` and leaves the (empty) disk unchanged with
`--session`. -/
theorem set_config_persistence_witness :
    set_cli_config (fun _ => true) cfgWithFile "harbor.username" "bob"
        none false none
      = (.ok cfgWithFileSet, some (save_dict cfgWithFileSet))
    ∧ set_cli_config (fun _ => true) cfgWithFile "harbor.username" "bob"
        none true none
      = (.ok cfgWithFileSet, none) :=
  ⟨set_config_persistence (fun _ => true) cfgWithFile "harbor.username" "bob"
      none false none cfgWithFileSet rfl (Or.inr rfl),
   set_config_persistence (fun _ => true) cfgWithFile "harbor.username" "bob"
      none true none cfgWithFileSet rfl (Or.inr rfl)⟩

/-! ### harbor/client.py — memoized client factory

`_CLIENTS` is a module-level dict from Harbor base URL to client instance;
`get_client` constructs a `HarborAsyncClient` only when the config's URL is
not yet a key.  Client instances are modelled by their construction index
(`next` counts constructions), so "identical instance" is equality of
indices. -/

/-- The `_CLIENTS` dict (client.py line 17) plus a construction counter. -/
structure ClientReg where
  clients : List (String × Nat) := []
  next : Nat := 0
deriving DecidableEq, Repr

/-- `get_client` (client.py lines 20-24): returns the memoized client for
`config.harbor.url`, constructing and registering a new one only when the
URL has no entry. -/
def get_client (reg : ClientReg) (c : HarborCLIConfig) : Nat × ClientReg :=
  match reg.clients.lookup c.harbor.url with
  | some cl => (cl, reg)
  | none =>
    (reg.next,
     { clients := (c.harbor.url, reg.next) :: reg.clients, next := reg.next + 1 })

/-- The clients returned by a sequence of `get_client` calls, in order. -/
def run_get_clients (reg : ClientReg) : List HarborCLIConfig → List Nat
  | [] => []
  | c :: cs => (get_client reg c).1 :: run_get_clients (get_client reg c).2 cs

/-- The registry after a sequence of `get_client` calls. -/
def final_reg (reg : ClientReg) : List HarborCLIConfig → ClientReg
  | [] => reg
  | c :: cs => final_reg (get_client reg c).2 cs

/-- The values returned by `str_prompt` for the URL, username and password
prompts of `setup_client`. -/
structure Prompts where
  url_input : String
  username_input : String
  secret_input : String
deriving DecidableEq, Repr

/-- What `setup_client` leaves behind: the (possibly prompted) config, which
prompts were issued, and the client installed into the state. -/
structure SetupResult where
  config : HarborCLIConfig
  prompted_url : Bool
  prompted_auth : Bool
  client : Nat
  reg : ClientReg
deriving DecidableEq, Repr

/-- `setup_client` (client.py lines 27-51): computes `has_url`/`has_auth`
up front from the loaded config, prompts for the URL when it is missing and
for username+password when no auth method is set, then creates the client
from the resulting config. -/
def setup_client (cfg : HarborCLIConfig) (p : Prompts) (reg : ClientReg) :
    SetupResult :=
  let has_url := cfg.harbor.url != ""
  let has_auth := cfg.harbor.has_auth_method
  let c1 :=
    if !has_url then { cfg with harbor := { cfg.harbor with url := p.url_input } }
    else cfg
  let c2 :=
    if !has_auth then
      { c1 with harbor :=
          { c1.harbor with username := p.username_input, secret := p.secret_input } }
    else c1
  let r := get_client reg c2
  { config := c2, prompted_url := !has_url, prompted_auth := !has_auth,
    client := r.1, reg := r.2 }

/-- After a `get_client` call, the call's URL is registered to the returned
client. -/
theorem get_client_lookup_self (reg : ClientReg) (c : HarborCLIConfig) :
    ((get_client reg c).2).clients.lookup c.harbor.url
      = some (get_client reg c).1 := by
  unfold get_client
  cases h : reg.clients.lookup c.harbor.url with
  | some cl => simp [h]
  | none => simp [List.lookup]

/-- A `get_client` call never removes or overwrites an existing entry. -/
theorem get_client_lookup_mono (reg : ClientReg) (c : HarborCLIConfig)
    (u : String) (v : Nat) (h : reg.clients.lookup u = some v) :
    ((get_client reg c).2).clients.lookup u = some v := by
  unfold get_client
  cases hl : reg.clients.lookup c.harbor.url with
  | some cl => simpa using h
  | none =>
    have hne : (u == c.harbor.url) = false := by
      cases hbe : (u == c.harbor.url) with
      | false => rfl
      | true =>
        rw [show u = c.harbor.url from eq_of_beq hbe] at h
        rw [h] at hl
        exact Option.noConfusion hl
    simpa [List.lookup, hne] using h

/-- Registry entries survive any sequence of `get_client` calls. -/
theorem final_reg_lookup_mono (cfgs : List HarborCLIConfig) (reg : ClientReg)
    (u : String) (v : Nat) (h : reg.clients.lookup u = some v) :
    (final_reg reg cfgs).clients.lookup u = some v := by
  induction cfgs generalizing reg with
  | nil => exact h
  | cons c cs ih => exact ih _ (get_client_lookup_mono reg c u v h)

/-- One client is returned per call. -/
theorem run_get_clients_length (reg : ClientReg) (cfgs : List HarborCLIConfig) :
    (run_get_clients reg cfgs).length = cfgs.length := by
  induction cfgs generalizing reg with
  | nil => rfl
  | cons c cs ih => simpa [run_get_clients] using ih (get_client reg c).2

/-- The k-th returned client is what the final registry holds for the k-th
call's URL. -/
theorem run_lookup_final (reg : ClientReg) (cfgs : List HarborCLIConfig)
    (k : Nat) (hk : k < cfgs.length) :
    (final_reg reg cfgs).clients.lookup ((cfgs.get ⟨k, hk⟩).harbor.url)
      = some ((run_get_clients reg cfgs).get
          ⟨k, by rw [run_get_clients_length]; exact hk⟩) := by
  induction cfgs generalizing reg k with
  | nil => exact absurd hk (by simp)
  | cons c cs ih =>
    cases k with
    | zero =>
      simpa [run_get_clients, final_reg]
        using final_reg_lookup_mono cs _ _ _ (get_client_lookup_self reg c)
    | succ k =>
      simpa [run_get_clients, final_reg]
        using ih (get_client reg c).2 k (Nat.lt_of_succ_lt_succ hk)

/-- C7: `get_client` memoizes one client per base URL — in any sequence of
calls, two calls whose configs carry the same `harbor.url` return the
identical client instance; a call whose URL is already registered returns
the existing instance unchanged, and a new instance is constructed exactly
when the URL has not been seen; `setup_client` prompts for the URL only
when it is missing, prompts for username/password only when no auth method
is set, and creates the client from the post-prompt config. -/
theorem get_client_memoization :
    (∀ (reg : ClientReg) (cfgs : List HarborCLIConfig) (i j : Nat)
        (hi : i < cfgs.length) (hj : j < cfgs.length),
        (cfgs.get ⟨i, hi⟩).harbor.url = (cfgs.get ⟨j, hj⟩).harbor.url →
        (run_get_clients reg cfgs).get
            ⟨i, by rw [run_get_clients_length]; exact hi⟩
          = (run_get_clients reg cfgs).get
            ⟨j, by rw [run_get_clients_length]; exact hj⟩)
    ∧ (∀ (reg : ClientReg) (c : HarborCLIConfig) (cl : Nat),
        reg.clients.lookup c.harbor.url = some cl → get_client reg c = (cl, reg))
    ∧ (∀ (reg : ClientReg) (c : HarborCLIConfig),
        reg.clients.lookup c.harbor.url = none →
        get_client reg c
          = (reg.next,
             { clients := (c.harbor.url, reg.next) :: reg.clients,
               next := reg.next + 1 }))
    ∧ (∀ (cfg : HarborCLIConfig) (p : Prompts) (reg : ClientReg),
        (setup_client cfg p reg).prompted_url = (cfg.harbor.url == "")
        ∧ (setup_client cfg p reg).prompted_auth = !cfg.harbor.has_auth_method
        ∧ (setup_client cfg p reg).client
            = (get_client reg (setup_client cfg p reg).config).1) := by
  refine ⟨?_, ?_, ?_, ?_⟩
  · intro reg cfgs i j hi hj hurl
    have h1 := run_lookup_final reg cfgs i hi
    have h2 := run_lookup_final reg cfgs j hj
    rw [hurl] at h1
    exact Option.some.inj (h1.symm.trans h2)
  · intro reg c cl h
    unfold get_client
    rw [h]
  · intro reg c h
    unfold get_client
    rw [h]
  · intro cfg p reg
    refine ⟨?_, rfl, rfl⟩
    simp [setup_client, bne]

/-- Concrete configs for the C7 witness: same URL, different credentials. -/
def cfgUrlA : HarborCLIConfig :=
  { harbor := { url := "https://a.example.com", username := "u", secret := "p" } }

/-- Second config carrying the same URL as `cfgUrlA`. -/
def cfgUrlA2 : HarborCLIConfig :=
  { harbor := { url := "https://a.example.com", basicauth := "zz" } }

/-- Config with no URL and no auth method, to exercise both prompts. -/
def cfgNoUrl : HarborCLIConfig := {}

/-- C7 witness: two calls with the same URL return the identical client;
a registered URL is returned unchanged; an unseen URL constructs client 0;
and a config missing both URL and credentials triggers both prompts. -/
theorem get_client_memoization_witness :
    (run_get_clients {} [cfgUrlA, cfgUrlA2]).get ⟨0, by decide⟩
      = (run_get_clients {} [cfgUrlA, cfgUrlA2]).get ⟨1, by decide⟩
    ∧ get_client { clients := [("https://a.example.com", 0)], next := 1 } cfgUrlA2
      = (0, { clients := [("https://a.example.com", 0)], next := 1 })
    ∧ get_client {} cfgUrlA
      = (0, { clients := [("https://a.example.com", 0)], next := 1 })
    ∧ (setup_client cfgNoUrl ⟨"https://x.example.com", "u2", "p2"⟩ {}).prompted_url
        = true
    ∧ (setup_client cfgNoUrl ⟨"https://x.example.com", "u2", "p2"⟩ {}).prompted_auth
        = true :=
  ⟨get_client_memoization.1 {} [cfgUrlA, cfgUrlA2] 0 1 (by decide) (by decide) rfl,
   get_client_memoization.2.1 _ cfgUrlA2 0 rfl,
   get_client_memoization.2.2.1 {} cfgUrlA rfl,
   (get_client_memoization.2.2.2 cfgNoUrl ⟨"https://x.example.com", "u2", "p2"⟩ {}).1,
   (get_client_memoization.2.2.2 cfgNoUrl ⟨"https://x.example.com", "u2", "p2"⟩ {}).2.1⟩
